import Mathlib

/-!
Verification of the go-ipfs HTTP gateway handler
(`src/core/corehttp/gateway_handler.go`) against its natural-language
specification.

The Go file is shallowly embedded below.  HTTP writer state (`http.ResponseWriter`)
is modelled by the `St` record: headers form an association list that can be
mutated until the first `WriteHeader`, at which point the status code and a
snapshot of the header map are frozen (matching Go, where headers written after
`WriteHeader` are not sent).  Store, importer, DAG-editor and dag-reader calls
are external collaborators (spec section 6); they are oracle functions carried
in an `Env` record, and every invocation is additionally recorded in an
explicit effect trace so that claims about "no store access" are statable.
Byte payloads and content keys are modelled as `String`s (base58 text of a key
stands for the key itself; `B58KeyDecode` is the identity under this view).
-/

/-! ### Go string and path primitives

Kernel-computable versions of the exact Go library functions the handler uses:
`strings.Split` (single-character separator), `strings.HasPrefix`,
`strings.HasSuffix`, `strings.SplitN`, `path.Base`, `path.Split`, `path.Clean`
and `path.Join`. -/

/-- Go `strings.Split` on a single-character separator, over the character
list of a string: `Split("", sep)` is `[""]`, and n separators give n+1
fields. -/
def splitCharList (c : Char) : List Char → List (List Char)
  | [] => [[]]
  | x :: xs =>
    if x = c then [] :: splitCharList c xs
    else
      match splitCharList c xs with
      | [] => [[x]]
      | y :: ys => (x :: y) :: ys

/-- Go `strings.Split(s, c)` for a one-character separator `c`. -/
def strSplit (s : String) (c : Char) : List String :=
  (splitCharList c s.data).map List.asString

/-- Go `strings.HasPrefix`. -/
def strStarts (s pre : String) : Bool :=
  pre.data.isPrefixOf s.data

/-- Go `strings.HasSuffix`. -/
def strEnds (s suf : String) : Bool :=
  suf.data.isSuffixOf s.data

/-- Go `strings.Join(elems, sep)`. -/
def strJoin (sep : String) : List String → String
  | [] => ""
  | [x] => x
  | x :: y :: ys => x ++ sep ++ strJoin sep (y :: ys)

/-- Go `strings.SplitN(s, c, n)` for `n > 0`: at most `n` fields, the last one
holding the unsplit remainder. -/
def strSplitN (s : String) (c : Char) (n : Nat) : List String :=
  let parts := strSplit s c
  if parts.length ≤ n then parts
  else parts.take (n - 1) ++ [strJoin (String.singleton c) (parts.drop (n - 1))]

/-- Drop trailing slash characters (the first step of Go `path.Base`). -/
def stripTrailingSlashes (s : String) : String :=
  ((s.data.reverse.dropWhile (fun ch => ch = '/')).reverse).asString

/-- Go `path.Base`: the last element of the path after trailing slashes are
removed; `"."` for the empty path and `"/"` for a path of only slashes. -/
def goPathBase (p : String) : String :=
  if p = "" then "."
  else
    let q := stripTrailingSlashes p
    let last := (strSplit q '/').getLastD ""
    if last = "" then "/" else last

/-- Go `path.Split`, second component: the part of the path after the final
slash (the file name). -/
def goFileName (p : String) : String :=
  (strSplit p '/').getLastD p

/-- Stack pass of Go `path.Clean`: empty and `"."` segments are dropped, `".."`
pops the stack when possible (and is kept only for unrooted paths that cannot
pop). The accumulated stack is kept reversed. -/
def cleanCore (rooted : Bool) : List String → List String → List String
  | [], stack => stack.reverse
  | s :: rest, stack =>
    if s = "" ∨ s = "." then cleanCore rooted rest stack
    else if s = ".." then
      match stack with
      | [] => if rooted then cleanCore rooted rest [] else cleanCore rooted rest [".."]
      | t :: ts =>
        if t = ".." then cleanCore rooted rest (".." :: t :: ts)
        else cleanCore rooted rest ts
    else cleanCore rooted rest (s :: stack)

/-- Go `path.Clean`. -/
def goPathClean (p : String) : String :=
  if p = "" then "."
  else
    let rooted := strStarts p "/"
    let out := strJoin "/" (cleanCore rooted (strSplit p '/') [])
    let out := if rooted then "/" ++ out else out
    if out = "" then "." else out

/-- Go `path.Join`: join from the first non-empty element and clean the
result; all-empty input gives `""`. -/
def goPathJoin (elems : List String) : String :=
  match elems.dropWhile (fun e => e = "") with
  | [] => ""
  | es => goPathClean (strJoin "/" es)

/-! ### Data model: nodes, links, errors, effects -/

/-- A merkledag link: `dag.Link` restricted to the fields the handler reads
(`Name`, `Size`, and the target key as base58 text). -/
structure Link where
  name : String
  size : Nat
  target : String
deriving DecidableEq

/-- A merkledag node: `dag.Node` = opaque byte payload plus ordered links.
The payload bytes are modelled as a `String`. -/
structure Node where
  data : String
  links : List Link
deriving DecidableEq

/-- Go error values the handler distinguishes, as one inductive: the typed
`path.ErrNoLink`, the sentinels `routing.ErrNotFound`, `context.DeadlineExceeded`
and `uio.ErrIsDir`, the two gateway errors declared in the source file, invalid
path parse errors, and everything else. -/
inductive GoErr where
  | errNoLink (name : String)
  | routingNotFound
  | deadlineExceeded
  | errIsDir
  | ipnsNotSupported
  | notMeaningful
  | invalidPath (p : String)
  | other (msg : String)
deriving DecidableEq

/-- The Go type switch `err.(path.ErrNoLink)` of `webError`. -/
def GoErr.isNoLink : GoErr → Bool
  | GoErr.errNoLink _ => true
  | _ => false

/-- The `Error()` string of each modelled error, used for the `"%s: %s"`
response bodies. The two `writableGateway` strings are the declarations of the
source file; the others stand in for the collaborator packages. -/
def errString : GoErr → String
  | GoErr.errNoLink name => "no link named " ++ name
  | GoErr.routingNotFound => "routing: not found"
  | GoErr.deadlineExceeded => "context deadline exceeded"
  | GoErr.errIsDir => "this dag node is a directory"
  | GoErr.ipnsNotSupported => "writableGateway: /ipns/ not supported"
  | GoErr.notMeaningful => "writableGateway: non-meaningful request"
  | GoErr.invalidPath p => "invalid ipfs path: " ++ p
  | GoErr.other msg => msg

/-- One recorded call to an external collaborator (store, importer or DAG
editor). The trace of these is what "no store access" claims quantify over. -/
inductive Effect where
  | resolveCall (p : String)
  | dagGetCall (k : String)
  | dagAddCall (n : Node)
  | importerCall
  | dagReaderCall
  | editorInsertCall (relPath : String) (n : Node)
  | editorRmLinkCall (relPath : String)
deriving DecidableEq

/-! ### The response-writer state -/

/-- One row of the rendered directory listing (`directoryItem`). -/
structure DirItem where
  size : String
  name : String
  path : String
deriving DecidableEq

/-- The data handed to the listing template (`listingTemplateData`); the
rendered HTML is abstracted into this record. -/
structure ListingData where
  items : List DirItem
  path : String
  backLink : String
deriving DecidableEq

/-- Arguments of a `http.ServeContent` call: the serve name and the
modification time (Unix seconds) passed for the streamed file. -/
structure ServedFile where
  name : String
  modtime : Int
deriving DecidableEq

/-- The modelled `http.ResponseWriter` plus the effect trace of one handler
run. `status` and `sentHdrs` freeze at the first `WriteHeader`; later header
mutations change only the in-memory map `hdrs` and are not sent, exactly as in
Go. -/
structure St where
  hdrs : List (String × String)
  status : Option Nat
  sentHdrs : Option (List (String × String))
  body : String
  served : Option ServedFile
  listing : Option ListingData
  effects : List Effect
deriving DecidableEq

/-- The fresh writer handed to a handler. -/
def St.init : St := ⟨[], none, none, "", none, none, []⟩

/-- Set (replace-in-place or append) one header in an association list, the
behaviour of assigning `w.Header()[k]`. -/
def setAssoc (l : List (String × String)) (k v : String) : List (String × String) :=
  match l with
  | [] => [(k, v)]
  | (k₁, v₁) :: rest => if k₁ = k then (k, v) :: rest else (k₁, v₁) :: setAssoc rest k v

/-- First-match header lookup. -/
def lookupHdr (l : List (String × String)) (k : String) : Option String :=
  match l with
  | [] => none
  | (k₁, v₁) :: rest => if k₁ = k then some v₁ else lookupHdr rest k

/-- Setting a header (`w.Header().Set` / map assignment). -/
def St.setHdr (st : St) (k v : String) : St :=
  { st with hdrs := setAssoc st.hdrs k v }

/-- `w.WriteHeader(code)`: the first call fixes the status and snapshots the
headers; later calls are ignored. -/
def St.writeHdr (st : St) (code : Nat) : St :=
  match st.status with
  | some _ => st
  | none => { st with status := some code, sentHdrs := some st.hdrs }

/-- `w.Write(...)`: an implicit 200 on first write, then body bytes append. -/
def St.write (st : St) (s : String) : St :=
  let st₁ := st.writeHdr 200
  { st₁ with body := st₁.body ++ s }

/-- Record one collaborator call in the effect trace. -/
def St.emit (st : St) (e : Effect) : St :=
  { st with effects := st.effects ++ [e] }

/-- `http.Redirect(w, r, url, code)`: set `Location` and write the status. -/
def St.redirect (st : St) (url : String) (code : Nat) : St :=
  (st.setHdr "Location" url).writeHdr code

/-- The net/http server sends an implicit 200 when a handler returns without
writing; applied to the final state of each handler. -/
def St.finalize (st : St) : St := st.writeHdr 200

/-- The header map actually sent to the client. -/
def St.sent (st : St) : List (String × String) :=
  st.sentHdrs.getD st.hdrs

/-! ### Environment: config plus external collaborators

Spec section 6 treats the store, importer, decoder, editor and block-list as
external collaborators with a defined interface; they are oracle functions
here, so one `Env` value fixes their behaviour for a whole request. -/

/-- Gateway configuration and collaborator oracles. `dagReader` returning
`none` means the node decodes as a file; `some GoErr.errIsDir` is the
`uio.ErrIsDir` outcome. `newDagFromReader` is the importer applied to the
request body. `nodeKey` is `(*dag.Node).Key()`, the content-derived key. -/
structure Env where
  writable : Bool
  headers : List (String × String)
  blockList : Option (String → Bool)
  resolve : String → Except GoErr Node
  dagGet : String → Except GoErr Node
  dagAdd : Node → Except GoErr String
  newDagFromReader : Except GoErr Node
  dagReader : Node → Option GoErr
  readAll : Node → String
  insertNodeAtPath : Node → String → Node → Except GoErr Node
  rmLink : Node → String → Except GoErr Node
  nodeKey : Node → Except GoErr String
  humanize : Nat → String

/-- An incoming HTTP request, restricted to the fields the handler reads.
`ifNoneMatch` is `r.Header.Get("If-None-Match")` (empty when absent);
`xIpnsOriginalPath` is the optional `X-IPNS-Original-Path` header set by
`IPNSHostnameOption`. -/
structure Request where
  method : String
  urlPath : String
  ifNoneMatch : String
  xIpnsOriginalPath : Option String
deriving DecidableEq

/-- The constant `ipfsPathPrefix` of the source file. -/
def ipfsPathPfx : String := "/ipfs/"

/-- The constant `ipnsPathPrefix` of the source file. -/
def ipnsPathPfx : String := "/ipns/"

/-- The `i.config.BlockList != nil && i.config.BlockList.ShouldBlock(urlPath)`
test. -/
def blockHit : Option (String → Bool) → String → Bool
  | none, _ => false
  | some f, p => f p

/-- Modelled from the spec: `path.Path.Segments()` of the path package, which
is not under src. Spec section 4.1: `segments()` exposes the raw slash-split
for positional indexing, with segment 0 the namespace tag and segment 1 the
root key, so the empty fields produced by the leading (and any duplicate or
trailing) slash are dropped. For `/ipfs/Qm1/a` this yields
`["ipfs", "Qm1", "a"]`. -/
def segments (p : String) : List String :=
  (strSplit p '/').filter (fun s => s ≠ "")

/-- Modelled from the spec: `path.ParsePath` of the path package, which is not
under src. Spec section 4.1: a path must begin with a recognized namespace
prefix, and a namespace root plus a key (two segments) is the minimum
addressable shape; anything else is an InvalidPath failure. The parsed path
keeps the original string (the handler re-splits it via `segments`). -/
def parsePath (s : String) : Except GoErr String :=
  if strStarts s ipfsPathPfx ∨ strStarts s ipnsPathPfx then
    if 2 ≤ (segments s).length then Except.ok s
    else Except.error (GoErr.invalidPath s)
  else Except.error (GoErr.invalidPath s)

/-! ### Error classifier (`webError`, `webErrorWithCode`, `internalWebError`) -/

/-- `webErrorWithCode`: write the status and the `"<message>: <error>"` body. -/
def webErrorWithCode (st : St) (message : String) (err : GoErr) (code : Nat) : St :=
  (st.writeHdr code).write (message ++ ": " ++ errString err)

/-- `webError`: classify the error exactly as the source's if-chain does, then
defer to `webErrorWithCode`. -/
def webError (st : St) (message : String) (err : GoErr) (defaultCode : Nat) : St :=
  if err.isNoLink then webErrorWithCode st message err 404
  else if err = GoErr.routingNotFound then webErrorWithCode st message err 404
  else if err = GoErr.deadlineExceeded then webErrorWithCode st message err 408
  else webErrorWithCode st message err defaultCode

/-- The status code `webError` selects, separated out for statements about the
classifier. -/
def webErrorCode (err : GoErr) (defaultCode : Nat) : Nat :=
  if err.isNoLink then 404
  else if err = GoErr.routingNotFound then 404
  else if err = GoErr.deadlineExceeded then 408
  else defaultCode

/-- `internalWebError`: a 500 with the standard body. -/
def internalWebError (st : St) (err : GoErr) : St :=
  webErrorWithCode st "internalWebError" err 500

/-- `addUserHeaders`: copy the operator-configured headers into the writer. -/
def addUserHeaders (headers : List (String × String)) (st : St) : St :=
  headers.foldl (fun s kv => s.setHdr kv.1 kv.2) st

/-! ### GET/HEAD handler -/

/-- The `originalURLPath` computation at the top of `getOrHeadHandler`: the
`X-IPNS-Original-Path` header when present, else the URL path. -/
def originalPathOf (r : Request) : String :=
  match r.xIpnsOriginalPath with
  | some h => h
  | none => r.urlPath

/-- The `Suborigin` value: field 2 of `strings.SplitN(urlPath, "/", 4)`. -/
def subOriginOf (urlPath : String) : String :=
  (strSplitN urlPath '/' 4).getD 2 ""

/-- The back-link computation of the directory listing (source lines 216-246):
the raw-split arithmetic first, then the replacement applied when the request
was rewritten by `IPNSHostnameOption`. -/
def computeBackLink (urlPath : String) (ipnsHostname : Bool) : String :=
  let pathSplit := strSplit urlPath '/'
  let backLink :=
    if pathSplit.length = 3 then urlPath
    else if pathSplit.length = 4 ∧ pathSplit.getD 3 "" = "" then urlPath
    else if strEnds urlPath "/" then urlPath ++ "./.."
    else urlPath ++ "/.."
  if ipnsHostname then
    if 5 < pathSplit.length then
      "/" ++ strJoin "/" ((pathSplit.drop 3).take (pathSplit.length - 2 - 3)) ++ "/"
    else "/"
  else backLink

/-- The `Etag`/`Cache-Control` block of lines 157-164, applied to both the file
and the directory outcome but only for `/ipfs/`-prefixed paths. -/
def ipfsCacheHdrs (st : St) (urlPath etag : String) : St :=
  if strStarts urlPath ipfsPathPfx then
    (st.setHdr "Etag" etag).setHdr "Cache-Control" "public, max-age=29030400"
  else st

/-- `http.ServeContent` for the resolved file: status 200 and the recorded
serve name and modtime. -/
def serveContent (st : St) (urlPath : String) (modtime : Int) : St :=
  let st₁ := st.writeHdr 200
  { st₁ with served := some ⟨goFileName urlPath, modtime⟩ }

/-- The `for _, link := range nd.Links` loop of the directory branch:
`Sum.inl` is an early return out of the handler (index redirect, index served,
or an error); `Sum.inr` means no `index.html` link was found and carries the
accumulated listing rows. -/
def indexScan (env : Env) (method urlPath originalURLPath : String) :
    St → List Link → List DirItem → Sum St (St × List DirItem)
  | st, [], acc => Sum.inr (st, acc)
  | st, link :: rest, acc =>
    if link.name = "index.html" then
      if !strEnds urlPath "/" then
        Sum.inl (st.redirect (originalURLPath ++ "/") 302)
      else
        let st₁ := st.emit (Effect.resolveCall (urlPath ++ "/index.html"))
        match env.resolve (urlPath ++ "/index.html") with
        | Except.error e => Sum.inl (internalWebError st₁ e)
        | Except.ok nd₂ =>
          let st₂ := st₁.emit Effect.dagReaderCall
          match env.dagReader nd₂ with
          | some e => Sum.inl (internalWebError st₂ e)
          | none =>
            if method ≠ "HEAD" then Sum.inl (st₂.write (env.readAll nd₂))
            else Sum.inl st₂
    else
      indexScan env method urlPath originalURLPath st rest
        (acc ++ [⟨env.humanize link.size, link.name, goPathJoin [originalURLPath, link.name]⟩])

/-- The directory outcome: scan the links; without an index file and for a
non-HEAD method, render the listing template with the computed back-link. -/
def dirCase (env : Env) (r : Request) (urlPath originalURLPath : String)
    (ipnsHostname : Bool) (st : St) (nd : Node) : St :=
  match indexScan env r.method urlPath originalURLPath st nd.links [] with
  | Sum.inl stFin => stFin
  | Sum.inr (st₁, dirListing) =>
    if r.method ≠ "HEAD" then
      let st₂ := st₁.writeHdr 200
      { st₂ with listing := some ⟨dirListing, originalURLPath, computeBackLink urlPath ipnsHostname⟩ }
    else st₁

/-- `getOrHeadHandler`. `now` is the value `time.Now()` would produce, passed
explicitly so that clock-independence is statable. -/
def getOrHeadHandler (env : Env) (now : Int) (r : Request) : St :=
  let urlPath := r.urlPath
  let originalURLPath := originalPathOf r
  let ipnsHostname := r.xIpnsOriginalPath.isSome
  let st : St := St.init
  if blockHit env.blockList urlPath then
    ((st.writeHdr 403).write "403 - Forbidden").finalize
  else
    let st := st.emit (Effect.resolveCall urlPath)
    match env.resolve urlPath with
    | Except.error err => (webError st "Path Resolve error" err 400).finalize
    | Except.ok nd =>
      let etag := goPathBase urlPath
      if r.ifNoneMatch = etag then (st.writeHdr 304).finalize
      else
        let st := addUserHeaders env.headers st
        let st := st.setHdr "X-IPFS-Path" urlPath
        let st := if ipnsHostname then st else st.setHdr "Suborigin" (subOriginOf urlPath)
        let st := st.emit Effect.dagReaderCall
        match env.dagReader nd with
        | some e =>
          if e ≠ GoErr.errIsDir then (internalWebError st e).finalize
          else
            let st := ipfsCacheHdrs st urlPath etag
            (dirCase env r urlPath originalURLPath ipnsHostname st nd).finalize
        | none =>
          let st := ipfsCacheHdrs st urlPath etag
          let modtime := if strStarts urlPath ipfsPathPfx then (1 : Int) else now
          (serveContent st urlPath modtime).finalize

/-! ### POST handler -/

/-- The well-known placeholder key of the empty unixfs directory. -/
def emptyDirPlaceholder : String := "QmUNLLsPACCz1vLxQVkXqqLX5R1X345qqfHbsf67hvA3Nn"

/-- Modelled from the spec: `uio.NewEmptyDirectory` of the unixfs package,
which is not under src. Spec sections 4.4 and 8: an empty-directory node —
the unixfs directory payload with no links. The payload string stands for the
serialized unixfs directory marker bytes. -/
def newEmptyDirectory : Node := ⟨"unixfs:dir", []⟩

/-- The `var newnode *dag.Node` selection of lines 276-286: the synthesized
empty directory for the placeholder key, otherwise the importer applied to the
request body (recorded as an importer effect). The error case is returned for
the caller to classify. -/
def postNewNode (env : Env) (lastSeg : String) (st : St) : St × Except GoErr Node :=
  if lastSeg = emptyDirPlaceholder then (st, Except.ok newEmptyDirectory)
  else
    match env.newDagFromReader with
    | Except.error e => (st.emit Effect.importerCall, Except.error e)
    | Except.ok n => (st.emit Effect.importerCall, Except.ok n)

/-- `%q`-style display of a node's key for the add-failure message, ignoring
the key error exactly as `nnk, _ := newnode.Key()` does. -/
def keyDisplay (env : Env) (n : Node) : String :=
  match env.nodeKey n with
  | Except.ok k => k
  | Except.error _ => ""

/-- The success tail shared by POST and DELETE (lines 336-338 and 388-390):
user headers, the `IPFS-Hash` header, and the 201 redirect to the new
canonical location. -/
def mutationSuccess (headers : List (String × String)) (st : St) (newkey newPath : String) : St :=
  let st₁ := addUserHeaders headers st
  let st₂ := st₁.setHdr "IPFS-Hash" newkey
  (st₂.redirect (goPathJoin [ipfsPathPfx, newkey, newPath]) 201).finalize

/-- `postHandler`. -/
def postHandler (env : Env) (r : Request) : St :=
  let st : St := St.init
  match parsePath r.urlPath with
  | Except.error err => (webError st "postHandler: ipfs path not valid" err 400).finalize
  | Except.ok rootPath =>
    let rsegs := segments rootPath
    if rsegs.getD 0 "" = ipnsPathPfx then
      (webError st "postHandler: updating named entries not supported" GoErr.ipnsNotSupported 400).finalize
    else
      let pr := postNewNode env (rsegs.getLastD "") st
      match pr.2 with
      | Except.error e =>
        (webError pr.1 "postHandler: Could not create DAG from request" e 500).finalize
      | Except.ok newnode =>
        let st := pr.1
        let newPath := if 1 < rsegs.length then goPathJoin (rsegs.drop 2) else ""
        let st := st.emit (Effect.resolveCall rootPath)
        match env.resolve rootPath with
        | Except.error (GoErr.errNoLink _name) =>
          let st := st.emit (Effect.dagGetCall (rsegs.getD 1 ""))
          match env.dagGet (rsegs.getD 1 "") with
          | Except.error e =>
            (webError st "postHandler: Could not create DAG from request" e 500).finalize
          | Except.ok rnode =>
            let st := st.emit (Effect.editorInsertCall newPath newnode)
            match env.insertNodeAtPath rnode newPath newnode with
            | Except.error e =>
              (webError st "postHandler: InsertNodeAtPath failed" e 500).finalize
            | Except.ok edited =>
              match env.nodeKey edited with
              | Except.error e =>
                (webError st "postHandler: could not get key of edited node" e 500).finalize
              | Except.ok newkey => mutationSuccess env.headers st newkey newPath
        | Except.ok rnode =>
          let addNode : Node := { rnode with data := newnode.data }
          let st := st.emit (Effect.dagAddCall addNode)
          match env.dagAdd addNode with
          | Except.error e =>
            (webError st
              ("postHandler: Could not add newnode(\"" ++ keyDisplay env newnode
                ++ "\") to root(\"" ++ keyDisplay env addNode ++ "\")") e 500).finalize
          | Except.ok newkey => mutationSuccess env.headers st newkey newPath
        | Except.error ev =>
          (webError st "could not resolve root DAG" ev 500).finalize

/-! ### DELETE handler -/

/-- `deleteHandler`. The 405 write for the bare `/ipfs/$hash` shape is kept
exactly as the source has it: the source does not return after it, so the
handler continues into the store fetch and the editor. -/
def deleteHandler (env : Env) (r : Request) : St :=
  let st : St := St.init
  if r.urlPath = "/ipfs" ∨ r.urlPath = ipfsPathPfx then
    (webErrorWithCode st "HTTP DELETE of /ipfs is not meaningful" GoErr.notMeaningful 405).finalize
  else
    match parsePath r.urlPath with
    | Except.error err => (webError st "deleteHandler: ipfs path not valid" err 400).finalize
    | Except.ok rootPath =>
      let rsegs := segments rootPath
      if rsegs.getD 0 "" = ipnsPathPfx then
        (webError st "deleteHandler: updating named entries not supported" GoErr.ipnsNotSupported 400).finalize
      else
        let st :=
          if rsegs.length = 2 then
            webErrorWithCode st "HTTP DELETE of /ipfs/$hash is not meaningful" GoErr.notMeaningful 405
          else st
        let st := st.emit (Effect.dagGetCall (rsegs.getD 1 ""))
        match env.dagGet (rsegs.getD 1 "") with
        | Except.error e =>
          (webError st "deleteHandler: Could not create DAG from request" e 500).finalize
        | Except.ok rnode =>
          let newPath := goPathJoin (rsegs.drop 2)
          let st := st.emit (Effect.editorRmLinkCall newPath)
          match env.rmLink rnode newPath with
          | Except.error e =>
            (webError st "deleteHandler: dag editor failed to rmLink()" e 500).finalize
          | Except.ok edited =>
            match env.nodeKey edited with
            | Except.error e =>
              (webError st "deleteHandler: could not get key of edited node" e 500).finalize
            | Except.ok newkey => mutationSuccess env.headers st newkey newPath

/-! ### Top-level dispatch -/

/-- `ServeHTTP`: method dispatch, the always-rejected PUT, and the fallback for
other methods. -/
def serveHTTP (env : Env) (now : Int) (r : Request) : St :=
  if env.writable ∧ r.method = "POST" then postHandler env r
  else if env.writable ∧ r.method = "PUT" then
    ((St.init.writeHdr 405).write
      "writableGateway: PUT method not meaningful on IPFS - use POST and see the docs\n").finalize
  else if env.writable ∧ r.method = "DELETE" then deleteHandler env r
  else if r.method = "GET" ∨ r.method = "HEAD" then getOrHeadHandler env now r
  else
    let errmsg := "Method " ++ r.method ++ " not allowed: "
    if ¬ env.writable then
      ((St.init.writeHdr 405).write (errmsg ++ "read only access")).finalize
    else
      ((St.init.writeHdr 400).write (errmsg ++ "bad request for " ++ r.urlPath)).finalize

/-! ### Spec-side definition and concrete fixtures

`claimBackLink` follows the words of the back-link claim (for comparison with
the code's `computeBackLink`); the fixtures below are concrete environments
and nodes used to instantiate theorems with hypotheses and to exhibit
counterexamples. -/

/-- The back-link as the claim words it: with exactly 3 raw split parts, or
exactly 4 parts whose last part (index 3) is empty, the path unchanged;
otherwise the path with `/..` appended, or `./..` when it already ends in a
slash. -/
def claimBackLink (p : String) : String :=
  let parts := strSplit p '/'
  if parts.length = 3 ∨ (parts.length = 4 ∧ parts.getD 3 "" = "") then p
  else if strEnds p "/" then p ++ "./.."
  else p ++ "/.."

/-- Project the writer state out of an `indexScan` outcome. -/
def scanSt : Sum St (St × List DirItem) → St
  | Sum.inl s => s
  | Sum.inr (s, _) => s

/-- Fixture: a node that decodes as a file. -/
def ndFileFx : Node := ⟨"filebytes", []⟩

/-- Fixture: a directory node without an index file. -/
def ndDirFx : Node := ⟨"dir", [⟨"a", 10, "QmA"⟩, ⟨"b", 20, "QmB"⟩]⟩

/-- Fixture: a directory node with an `index.html` link. -/
def ndIdxFx : Node := ⟨"dir", [⟨"a", 10, "QmA"⟩, ⟨"index.html", 5, "QmI"⟩]⟩

/-- Fixture: a writable gateway with one operator header and benign
collaborators; individual fixtures below override single oracles. -/
def envFx : Env :=
  { writable := true
    headers := [("X-Gateway", "test")]
    blockList := none
    resolve := fun _ => Except.error (GoErr.other "unreached")
    dagGet := fun _ => Except.error (GoErr.other "unreached")
    dagAdd := fun _ => Except.ok "QmNEW"
    newDagFromReader := Except.error (GoErr.other "unreached")
    dagReader := fun _ => none
    readAll := fun n => n.data
    insertNodeAtPath := fun _ _ n => Except.ok n
    rmLink := fun n _ => Except.ok n
    nodeKey := fun _ => Except.ok "QmKEY"
    humanize := fun n => toString n }

/-- Fixture: every path resolves to the plain directory node. -/
def envDirFx : Env :=
  { envFx with resolve := fun _ => Except.ok ndDirFx, dagReader := fun _ => some GoErr.errIsDir }

/-- Fixture: every path resolves to the file node. -/
def envFileFx : Env :=
  { envFx with resolve := fun _ => Except.ok ndFileFx }

/-- Fixture: every path resolves to the directory with an index file. -/
def envIdxFx : Env :=
  { envFx with resolve := fun _ => Except.ok ndIdxFx, dagReader := fun _ => some GoErr.errIsDir }

/-- Fixture: resolution succeeds but the dag reader fails with a non-directory
error. -/
def envBadReaderFx : Env :=
  { envFx with resolve := fun _ => Except.ok ndFileFx,
               dagReader := fun _ => some (GoErr.other "corrupt block") }

/-- Fixture: resolution always fails with an unclassified error. -/
def envResolveErrFx : Env :=
  { envFx with resolve := fun _ => Except.error (GoErr.other "no route to block") }

/-- Fixture: the importer fails (used to observe that POST on an /ipns/ path
reaches the importer at all). -/
def envImpErrFx : Env :=
  { envFx with newDagFromReader := Except.error (GoErr.other "importer failed") }

/-- Fixture: store reads succeed with the plain directory node. -/
def envDelFx : Env :=
  { envFx with dagGet := fun _ => Except.ok ndDirFx }

/-- Fixture: POST against a resolvable root. -/
def envPostFx : Env :=
  { envFx with resolve := fun _ => Except.ok ndDirFx }

/-! ### Writer-state lemmas

Field-preservation facts for the `St` combinators, used to track which parts
of the response each handler stage can touch. -/

@[simp] theorem setHdr_status (st : St) (k v : String) : (st.setHdr k v).status = st.status := rfl

@[simp] theorem setHdr_sentHdrs (st : St) (k v : String) : (st.setHdr k v).sentHdrs = st.sentHdrs := rfl

@[simp] theorem setHdr_body (st : St) (k v : String) : (st.setHdr k v).body = st.body := rfl

@[simp] theorem setHdr_served (st : St) (k v : String) : (st.setHdr k v).served = st.served := rfl

@[simp] theorem setHdr_listing (st : St) (k v : String) : (st.setHdr k v).listing = st.listing := rfl

@[simp] theorem setHdr_effects (st : St) (k v : String) : (st.setHdr k v).effects = st.effects := rfl

@[simp] theorem setHdr_hdrs (st : St) (k v : String) : (st.setHdr k v).hdrs = setAssoc st.hdrs k v := rfl

@[simp] theorem emit_status (st : St) (e : Effect) : (st.emit e).status = st.status := rfl

@[simp] theorem emit_sentHdrs (st : St) (e : Effect) : (st.emit e).sentHdrs = st.sentHdrs := rfl

@[simp] theorem emit_body (st : St) (e : Effect) : (st.emit e).body = st.body := rfl

@[simp] theorem emit_served (st : St) (e : Effect) : (st.emit e).served = st.served := rfl

@[simp] theorem emit_listing (st : St) (e : Effect) : (st.emit e).listing = st.listing := rfl

@[simp] theorem emit_hdrs (st : St) (e : Effect) : (st.emit e).hdrs = st.hdrs := rfl

@[simp] theorem emit_effects (st : St) (e : Effect) : (st.emit e).effects = st.effects ++ [e] := rfl

@[simp] theorem writeHdr_hdrs (st : St) (c : Nat) : (st.writeHdr c).hdrs = st.hdrs := by
  unfold St.writeHdr; split <;> rfl

@[simp] theorem writeHdr_body (st : St) (c : Nat) : (st.writeHdr c).body = st.body := by
  unfold St.writeHdr; split <;> rfl

@[simp] theorem writeHdr_served (st : St) (c : Nat) : (st.writeHdr c).served = st.served := by
  unfold St.writeHdr; split <;> rfl

@[simp] theorem writeHdr_listing (st : St) (c : Nat) : (st.writeHdr c).listing = st.listing := by
  unfold St.writeHdr; split <;> rfl

@[simp] theorem writeHdr_effects (st : St) (c : Nat) : (st.writeHdr c).effects = st.effects := by
  unfold St.writeHdr; split <;> rfl

theorem writeHdr_none {st : St} (h : st.status = none) (c : Nat) :
    st.writeHdr c = { st with status := some c, sentHdrs := some st.hdrs } := by
  unfold St.writeHdr; rw [h]

theorem writeHdr_some {st : St} {c₀ : Nat} (h : st.status = some c₀) (c : Nat) :
    st.writeHdr c = st := by
  unfold St.writeHdr; rw [h]

@[simp] theorem write_served (st : St) (s : String) : (st.write s).served = st.served := by
  simp [St.write]

@[simp] theorem write_listing (st : St) (s : String) : (st.write s).listing = st.listing := by
  simp [St.write]

@[simp] theorem write_effects (st : St) (s : String) : (st.write s).effects = st.effects := by
  simp [St.write]

@[simp] theorem write_hdrs (st : St) (s : String) : (st.write s).hdrs = st.hdrs := by
  simp [St.write]

@[simp] theorem write_status (st : St) (s : String) : (st.write s).status = (st.writeHdr 200).status := rfl

@[simp] theorem write_sentHdrs (st : St) (s : String) : (st.write s).sentHdrs = (st.writeHdr 200).sentHdrs := rfl

@[simp] theorem finalize_served (st : St) : st.finalize.served = st.served := by
  simp [St.finalize]

@[simp] theorem finalize_listing (st : St) : st.finalize.listing = st.listing := by
  simp [St.finalize]

@[simp] theorem finalize_effects (st : St) : st.finalize.effects = st.effects := by
  simp [St.finalize]

@[simp] theorem finalize_body (st : St) : st.finalize.body = st.body := by
  simp [St.finalize]

@[simp] theorem finalize_hdrs (st : St) : st.finalize.hdrs = st.hdrs := by
  simp [St.finalize]

theorem finalize_of_some {st : St} {c : Nat} (h : st.status = some c) : st.finalize = st :=
  writeHdr_some h 200

@[simp] theorem redirect_served (st : St) (url : String) (c : Nat) :
    (st.redirect url c).served = st.served := by simp [St.redirect]

@[simp] theorem redirect_listing (st : St) (url : String) (c : Nat) :
    (st.redirect url c).listing = st.listing := by simp [St.redirect]

@[simp] theorem redirect_effects (st : St) (url : String) (c : Nat) :
    (st.redirect url c).effects = st.effects := by simp [St.redirect]

theorem redirect_run {st : St} (h : st.status = none) (url : String) (c : Nat) :
    st.redirect url c =
      { st with hdrs := setAssoc st.hdrs "Location" url, status := some c,
                sentHdrs := some (setAssoc st.hdrs "Location" url) } := by
  unfold St.redirect
  rw [writeHdr_none (by simp [h])]
  rfl

@[simp] theorem wewc_served (st : St) (m : String) (e : GoErr) (c : Nat) :
    (webErrorWithCode st m e c).served = st.served := by simp [webErrorWithCode]

@[simp] theorem wewc_listing (st : St) (m : String) (e : GoErr) (c : Nat) :
    (webErrorWithCode st m e c).listing = st.listing := by simp [webErrorWithCode]

@[simp] theorem wewc_effects (st : St) (m : String) (e : GoErr) (c : Nat) :
    (webErrorWithCode st m e c).effects = st.effects := by simp [webErrorWithCode]

@[simp] theorem wewc_hdrs (st : St) (m : String) (e : GoErr) (c : Nat) :
    (webErrorWithCode st m e c).hdrs = st.hdrs := by simp [webErrorWithCode]

theorem wewc_run {st : St} (h : st.status = none) (m : String) (e : GoErr) (c : Nat) :
    webErrorWithCode st m e c =
      { st with status := some c, sentHdrs := some st.hdrs,
                body := st.body ++ (m ++ ": " ++ errString e) } := by
  unfold webErrorWithCode St.write
  rw [writeHdr_none h]
  rfl

@[simp] theorem webError_served (st : St) (m : String) (e : GoErr) (d : Nat) :
    (webError st m e d).served = st.served := by
  unfold webError; split_ifs <;> simp

@[simp] theorem webError_listing (st : St) (m : String) (e : GoErr) (d : Nat) :
    (webError st m e d).listing = st.listing := by
  unfold webError; split_ifs <;> simp

@[simp] theorem webError_effects (st : St) (m : String) (e : GoErr) (d : Nat) :
    (webError st m e d).effects = st.effects := by
  unfold webError; split_ifs <;> simp

@[simp] theorem webError_hdrs (st : St) (m : String) (e : GoErr) (d : Nat) :
    (webError st m e d).hdrs = st.hdrs := by
  unfold webError; split_ifs <;> simp

theorem webError_run {st : St} (h : st.status = none) (m : String) (e : GoErr) (d : Nat) :
    webError st m e d =
      { st with status := some (webErrorCode e d), sentHdrs := some st.hdrs,
                body := st.body ++ (m ++ ": " ++ errString e) } := by
  unfold webError webErrorCode
  split_ifs <;> exact wewc_run h m e _

@[simp] theorem internalWebError_served (st : St) (e : GoErr) :
    (internalWebError st e).served = st.served := by simp [internalWebError]

@[simp] theorem internalWebError_listing (st : St) (e : GoErr) :
    (internalWebError st e).listing = st.listing := by simp [internalWebError]

@[simp] theorem internalWebError_effects (st : St) (e : GoErr) :
    (internalWebError st e).effects = st.effects := by simp [internalWebError]

@[simp] theorem addUserHeaders_status (hs : List (String × String)) (st : St) :
    (addUserHeaders hs st).status = st.status := by
  induction hs generalizing st with
  | nil => rfl
  | cons kv t ih => simpa [addUserHeaders, List.foldl_cons] using ih (st.setHdr kv.1 kv.2)

@[simp] theorem addUserHeaders_sentHdrs (hs : List (String × String)) (st : St) :
    (addUserHeaders hs st).sentHdrs = st.sentHdrs := by
  induction hs generalizing st with
  | nil => rfl
  | cons kv t ih => simpa [addUserHeaders, List.foldl_cons] using ih (st.setHdr kv.1 kv.2)

@[simp] theorem addUserHeaders_body (hs : List (String × String)) (st : St) :
    (addUserHeaders hs st).body = st.body := by
  induction hs generalizing st with
  | nil => rfl
  | cons kv t ih => simpa [addUserHeaders, List.foldl_cons] using ih (st.setHdr kv.1 kv.2)

@[simp] theorem addUserHeaders_served (hs : List (String × String)) (st : St) :
    (addUserHeaders hs st).served = st.served := by
  induction hs generalizing st with
  | nil => rfl
  | cons kv t ih => simpa [addUserHeaders, List.foldl_cons] using ih (st.setHdr kv.1 kv.2)

@[simp] theorem addUserHeaders_listing (hs : List (String × String)) (st : St) :
    (addUserHeaders hs st).listing = st.listing := by
  induction hs generalizing st with
  | nil => rfl
  | cons kv t ih => simpa [addUserHeaders, List.foldl_cons] using ih (st.setHdr kv.1 kv.2)

@[simp] theorem addUserHeaders_effects (hs : List (String × String)) (st : St) :
    (addUserHeaders hs st).effects = st.effects := by
  induction hs generalizing st with
  | nil => rfl
  | cons kv t ih => simpa [addUserHeaders, List.foldl_cons] using ih (st.setHdr kv.1 kv.2)

@[simp] theorem ipfsCacheHdrs_status (st : St) (p e : String) :
    (ipfsCacheHdrs st p e).status = st.status := by
  unfold ipfsCacheHdrs; split <;> simp

@[simp] theorem ipfsCacheHdrs_sentHdrs (st : St) (p e : String) :
    (ipfsCacheHdrs st p e).sentHdrs = st.sentHdrs := by
  unfold ipfsCacheHdrs; split <;> simp

@[simp] theorem ipfsCacheHdrs_body (st : St) (p e : String) :
    (ipfsCacheHdrs st p e).body = st.body := by
  unfold ipfsCacheHdrs; split <;> simp

@[simp] theorem ipfsCacheHdrs_served (st : St) (p e : String) :
    (ipfsCacheHdrs st p e).served = st.served := by
  unfold ipfsCacheHdrs; split <;> simp

@[simp] theorem ipfsCacheHdrs_listing (st : St) (p e : String) :
    (ipfsCacheHdrs st p e).listing = st.listing := by
  unfold ipfsCacheHdrs; split <;> simp

@[simp] theorem ipfsCacheHdrs_effects (st : St) (p e : String) :
    (ipfsCacheHdrs st p e).effects = st.effects := by
  unfold ipfsCacheHdrs; split <;> simp

@[simp] theorem serveContent_listing (st : St) (p : String) (mt : Int) :
    (serveContent st p mt).listing = st.listing := by simp [serveContent]

@[simp] theorem serveContent_effects (st : St) (p : String) (mt : Int) :
    (serveContent st p mt).effects = st.effects := by simp [serveContent]

theorem serveContent_run {st : St} (h : st.status = none) (p : String) (mt : Int) :
    serveContent st p mt =
      { st with status := some 200, sentHdrs := some st.hdrs,
                served := some ⟨goFileName p, mt⟩ } := by
  unfold serveContent
  rw [writeHdr_none h]

@[simp] theorem mutationSuccess_served (hs : List (String × String)) (st : St) (k np : String) :
    (mutationSuccess hs st k np).served = st.served := by simp [mutationSuccess]

@[simp] theorem mutationSuccess_listing (hs : List (String × String)) (st : St) (k np : String) :
    (mutationSuccess hs st k np).listing = st.listing := by simp [mutationSuccess]

@[simp] theorem mutationSuccess_effects (hs : List (String × String)) (st : St) (k np : String) :
    (mutationSuccess hs st k np).effects = st.effects := by simp [mutationSuccess]

/-! ### Header association-list lemmas -/

theorem lookup_setAssoc_self (l : List (String × String)) (k v : String) :
    lookupHdr (setAssoc l k v) k = some v := by
  induction l with
  | nil => simp [setAssoc, lookupHdr]
  | cons kv t ih =>
    by_cases h : kv.1 = k
    · simp [setAssoc, lookupHdr, h]
    · simp [setAssoc, lookupHdr, h, ih]

theorem lookup_setAssoc_other (l : List (String × String)) (k v k₂ : String) (h : k₂ ≠ k) :
    lookupHdr (setAssoc l k v) k₂ = lookupHdr l k₂ := by
  induction l with
  | nil => simp [setAssoc, lookupHdr, Ne.symm h]
  | cons kv t ih =>
    by_cases h₁ : kv.1 = k
    · subst h₁
      simp [setAssoc, lookupHdr, Ne.symm h]
    · simp [setAssoc, lookupHdr, h₁, ih]

/-! ### Initial-state facts -/

@[simp] theorem init_hdrs : St.init.hdrs = [] := rfl

@[simp] theorem init_status : St.init.status = none := rfl

@[simp] theorem init_sentHdrs : St.init.sentHdrs = none := rfl

@[simp] theorem init_body : St.init.body = "" := rfl

@[simp] theorem init_served : St.init.served = none := rfl

@[simp] theorem init_listing : St.init.listing = none := rfl

@[simp] theorem init_effects : St.init.effects = [] := rfl

/-! ### Link-scan and directory-case lemmas -/

theorem indexScan_preserves (env : Env) (method up op : String) :
    ∀ (links : List Link) (st : St) (acc : List DirItem),
      (scanSt (indexScan env method up op st links acc)).served = st.served ∧
      (scanSt (indexScan env method up op st links acc)).listing = st.listing := by
  intro links
  induction links with
  | nil => intro st acc; exact ⟨rfl, rfl⟩
  | cons l t ih =>
    intro st acc
    by_cases hn : l.name = "index.html"
    · by_cases hs : strEnds up "/" = true
      · cases hr : env.resolve (up ++ "/index.html") with
        | error e => simp [indexScan, hn, hs, hr, scanSt]
        | ok nd₂ =>
          cases hd : env.dagReader nd₂ with
          | none =>
            by_cases hm : method = "HEAD" <;>
              simp [indexScan, hn, hs, hr, hd, hm, scanSt]
          | some e => simp [indexScan, hn, hs, hr, hd, scanSt]
      · simp [indexScan, hn, Bool.of_not_eq_true hs, scanSt]
    · simpa [indexScan, hn] using ih st (acc ++ [⟨env.humanize l.size, l.name, goPathJoin [op, l.name]⟩])

theorem indexScan_redirect (env : Env) (method up op : String)
    (hslash : strEnds up "/" = false) :
    ∀ (links : List Link) (st : St) (acc : List DirItem),
      (∃ l ∈ links, l.name = "index.html") →
      indexScan env method up op st links acc = Sum.inl (st.redirect (op ++ "/") 302) := by
  intro links
  induction links with
  | nil =>
    intro st acc h
    simp at h
  | cons l t ih =>
    intro st acc h
    by_cases hn : l.name = "index.html"
    · simp [indexScan, hn, hslash]
    · obtain ⟨l₂, hmem, hname⟩ := h
      rcases List.mem_cons.mp hmem with heq | hmem₂
      · exact absurd (heq ▸ hname) hn
      · simpa [indexScan, hn] using ih st _ ⟨l₂, hmem₂, hname⟩

theorem dirCase_served (env : Env) (r : Request) (up op : String) (ih : Bool)
    (st : St) (nd : Node) : (dirCase env r up op ih st nd).served = st.served := by
  unfold dirCase
  cases hscan : indexScan env r.method up op st nd.links [] with
  | inl s =>
    have hp := (indexScan_preserves env r.method up op nd.links st []).1
    rw [hscan] at hp
    simpa [scanSt] using hp
  | inr p =>
    have hp := (indexScan_preserves env r.method up op nd.links st []).1
    rw [hscan] at hp
    simp only [scanSt] at hp
    by_cases hm : r.method = "HEAD" <;> simp [hm, hp]

theorem dirCase_listing (env : Env) (r : Request) (up op : String) (ih : Bool)
    (st : St) (nd : Node) (h : st.listing = none) :
    (dirCase env r up op ih st nd).listing = none ∨
      ∃ items, (dirCase env r up op ih st nd).listing =
        some ⟨items, op, computeBackLink up ih⟩ := by
  unfold dirCase
  cases hscan : indexScan env r.method up op st nd.links [] with
  | inl s =>
    left
    have hp := (indexScan_preserves env r.method up op nd.links st []).2
    rw [hscan] at hp
    simpa [scanSt, h] using hp
  | inr p =>
    have hp := (indexScan_preserves env r.method up op nd.links st []).2
    rw [hscan] at hp
    simp only [scanSt] at hp
    by_cases hm : r.method = "HEAD"
    · left
      simp [hm, hp, h]
    · right
      exact ⟨p.2, by simp [hm]⟩

/-! ### Mutation-success and classifier run lemmas -/

theorem mutationSuccess_fields (hs : List (String × String)) (st : St) (k np : String)
    (h : st.status = none) :
    (mutationSuccess hs st k np).status = some 201 ∧
    lookupHdr (mutationSuccess hs st k np).sent "IPFS-Hash" = some k ∧
    lookupHdr (mutationSuccess hs st k np).sent "Location" =
      some (goPathJoin [ipfsPathPfx, k, np]) := by
  simp only [mutationSuccess]
  have h₁ : ((addUserHeaders hs st).setHdr "IPFS-Hash" k).status = none := by simp [h]
  rw [redirect_run h₁]
  refine ⟨by rw [finalize_of_some rfl], ?_, ?_⟩
  · rw [finalize_of_some rfl]
    simp only [St.sent, Option.getD_some]
    rw [lookup_setAssoc_other _ _ _ _ (by decide)]
    simp only [setHdr_hdrs]
    rw [lookup_setAssoc_self]
  · rw [finalize_of_some rfl]
    simp only [St.sent, Option.getD_some]
    rw [lookup_setAssoc_self]

/-! ### Back-link equivalence -/

theorem computeBackLink_eq_claim (p : String) :
    computeBackLink p false = claimBackLink p := by
  unfold computeBackLink claimBackLink
  by_cases h₃ : (strSplit p '/').length = 3
  · simp [h₃]
  · by_cases h₄ : (strSplit p '/').length = 4 ∧ (strSplit p '/').getD 3 "" = ""
    · simp [h₃, h₄]
    · simp [h₃, h₄]

/-! ### Claim theorems -/

/-- Claim C9: the error classifier maps a resolution no-such-link error to
404, the routing not-found sentinel to 404, a context deadline-exceeded error
to 408, and any other error to the caller-supplied default code; in all cases
the response body is the plain-text string built as message, colon, space,
error text. -/
theorem webErrorClassification (m : String) (d : Nat) :
    (∀ name, (webError St.init m (GoErr.errNoLink name) d).status = some 404) ∧
    (webError St.init m GoErr.routingNotFound d).status = some 404 ∧
    (webError St.init m GoErr.deadlineExceeded d).status = some 408 ∧
    (∀ e : GoErr, e.isNoLink = false → e ≠ GoErr.routingNotFound →
      e ≠ GoErr.deadlineExceeded → (webError St.init m e d).status = some d) ∧
    (∀ e : GoErr, (webError St.init m e d).body = m ++ ": " ++ errString e) := by
  refine ⟨?_, ?_, ?_, ?_, ?_⟩
  · intro name
    rw [webError_run rfl]
    simp [webErrorCode, GoErr.isNoLink]
  · rw [webError_run rfl]
    simp [webErrorCode, GoErr.isNoLink]
  · rw [webError_run rfl]
    simp [webErrorCode, GoErr.isNoLink]
  · intro e h₁ h₂ h₃
    rw [webError_run rfl]
    simp [webErrorCode, h₁, h₂, h₃]
  · intro e
    rw [webError_run rfl]
    rfl

/-- Witness for C9: the classifier applied at concrete inputs, discharging the
hypotheses of the catch-all case. -/
theorem webErrorClassificationApplied :
    (webError St.init "store failed" (GoErr.other "disk error") 500).status = some 500 :=
  (webErrorClassification "store failed" 500).2.2.2.1 (GoErr.other "disk error")
    (by decide) (by decide) (by decide)

/-- Claim C1: the claim states that DELETE on `/ipfs`, `/ipfs/` and bare
`/ipfs/<key>` returns 405 with no store access.  It holds for `/ipfs` and
`/ipfs/`, but for bare `/ipfs/<key>` the source writes the 405 and then,
lacking a return statement, still fetches the root node from the store and
runs the editor: the code contradicts the abort its own error message
announces. -/
theorem deleteBareKeyStillTouchesStore :
    (deleteHandler envDelFx ⟨"DELETE", "/ipfs/Qm1", "", none⟩).status = some 405 ∧
    Effect.dagGetCall "Qm1" ∈ (deleteHandler envDelFx ⟨"DELETE", "/ipfs/Qm1", "", none⟩).effects ∧
    Effect.editorRmLinkCall "" ∈ (deleteHandler envDelFx ⟨"DELETE", "/ipfs/Qm1", "", none⟩).effects ∧
    (deleteHandler envDelFx ⟨"DELETE", "/ipfs", "", none⟩).status = some 405 ∧
    (deleteHandler envDelFx ⟨"DELETE", "/ipfs", "", none⟩).effects = [] ∧
    (deleteHandler envDelFx ⟨"DELETE", "/ipfs/", "", none⟩).status = some 405 ∧
    (deleteHandler envDelFx ⟨"DELETE", "/ipfs/", "", none⟩).effects = [] := by
  decide

/-- Claim C2: the claim states POST and DELETE reject name-addressed paths
with 400 and the ErrIPNSNotSupported error before any importer or store work.
The guard compares segment 0 (the slash-free namespace tag "ipns") with the
constant "/ipns/", so it can never fire: POST on /ipns/foo reaches the
importer and fails there with 500, and DELETE on /ipns/foo takes the
two-segment 405 branch and then fetches from the store. -/
theorem ipnsRejectionGuardIsDead :
    segments "/ipns/foo" = ["ipns", "foo"] ∧
    ("ipns" : String) ≠ ipnsPathPfx ∧
    Effect.importerCall ∈ (postHandler envImpErrFx ⟨"POST", "/ipns/foo", "", none⟩).effects ∧
    (postHandler envImpErrFx ⟨"POST", "/ipns/foo", "", none⟩).status = some 500 ∧
    (postHandler envImpErrFx ⟨"POST", "/ipns/foo", "", none⟩).body ≠
      "postHandler: updating named entries not supported: " ++ errString GoErr.ipnsNotSupported ∧
    (deleteHandler envDelFx ⟨"DELETE", "/ipns/foo", "", none⟩).status = some 405 ∧
    Effect.dagGetCall "foo" ∈ (deleteHandler envDelFx ⟨"DELETE", "/ipns/foo", "", none⟩).effects := by
  decide

/-- Counterexample for C3: the claim says the 304 short-circuit happens before
any store access.  On a request whose If-None-Match matches the path's entity
tag, the response is 304 but the effect trace already contains the resolve
call: resolution (a store access) happens before the entity-tag check. -/
theorem notModifiedAfterResolveCounterexample :
    (getOrHeadHandler envFileFx 0 ⟨"GET", "/ipfs/Qm1", "Qm1", none⟩).status = some 304 ∧
    (getOrHeadHandler envFileFx 0 ⟨"GET", "/ipfs/Qm1", "Qm1", none⟩).effects =
      [Effect.resolveCall "/ipfs/Qm1"] ∧
    ("Qm1" : String) = goPathBase "/ipfs/Qm1" := by
  decide

/-- Claim C3 as amended: when resolution succeeds and the If-None-Match header
equals the path's entity tag, the handler responds 304 Not Modified with no
headers and no body, and the only store access is the single path resolution
itself — the short-circuit happens after resolution but before the node's
content is opened. -/
theorem notModifiedShortCircuit (env : Env) (now : Int) (r : Request) (nd : Node)
    (hb : blockHit env.blockList r.urlPath = false)
    (hres : env.resolve r.urlPath = Except.ok nd)
    (hm : r.ifNoneMatch = goPathBase r.urlPath) :
    (getOrHeadHandler env now r).status = some 304 ∧
    (getOrHeadHandler env now r).effects = [Effect.resolveCall r.urlPath] ∧
    (getOrHeadHandler env now r).sentHdrs = some [] ∧
    (getOrHeadHandler env now r).body = "" := by
  have hrun : getOrHeadHandler env now r =
      ((St.init.emit (Effect.resolveCall r.urlPath)).writeHdr 304).finalize := by
    unfold getOrHeadHandler
    simp [hb, hres, hm]
  rw [hrun, writeHdr_none rfl, finalize_of_some rfl]
  exact ⟨rfl, rfl, rfl, rfl⟩

/-- Witness for C3 amended: the short-circuit theorem applied at a concrete
request with a matching entity tag. -/
theorem notModifiedShortCircuitApplied :
    (getOrHeadHandler envFileFx 7 ⟨"GET", "/ipfs/QmW/x", "x", none⟩).status = some 304 ∧
    (getOrHeadHandler envFileFx 7 ⟨"GET", "/ipfs/QmW/x", "x", none⟩).effects =
      [Effect.resolveCall "/ipfs/QmW/x"] ∧
    (getOrHeadHandler envFileFx 7 ⟨"GET", "/ipfs/QmW/x", "x", none⟩).sentHdrs = some [] ∧
    (getOrHeadHandler envFileFx 7 ⟨"GET", "/ipfs/QmW/x", "x", none⟩).body = "" :=
  notModifiedShortCircuit envFileFx 7 ⟨"GET", "/ipfs/QmW/x", "x", none⟩ ndFileFx
    (by decide) rfl (by decide)

/-- Counterexample for C10: the claim says every 500 error response is written
without the operator-configured headers.  When resolution succeeds and the dag
reader then fails with a non-directory error, the 500 is written after the
user-header point and does carry the configured header. -/
theorem userHeadersOn500Counterexample :
    envBadReaderFx.headers = [("X-Gateway", "test")] ∧
    (getOrHeadHandler envBadReaderFx 0 ⟨"GET", "/ipfs/Qm1", "", none⟩).status = some 500 ∧
    ("X-Gateway", "test") ∈ (getOrHeadHandler envBadReaderFx 0 ⟨"GET", "/ipfs/Qm1", "", none⟩).sent := by
  decide

/-- Claim C10 as amended: operator headers are added only after the
entity-tag check of GET/HEAD and on the 201 paths of POST/DELETE, so every
GET/HEAD response rejected at resolution time is sent with an empty header map
(hence without operator headers); but GET/HEAD errors arising after that
point, such as the dag-reader 500, do carry them (see the counterexample). -/
theorem userHeadersSkippedOnResolveError (env : Env) (now : Int) (r : Request) (e : GoErr)
    (hb : blockHit env.blockList r.urlPath = false)
    (hres : env.resolve r.urlPath = Except.error e) :
    (getOrHeadHandler env now r).sentHdrs = some [] ∧
    (getOrHeadHandler env now r).status = some (webErrorCode e 400) := by
  have hrun : getOrHeadHandler env now r =
      (webError (St.init.emit (Effect.resolveCall r.urlPath)) "Path Resolve error" e 400).finalize := by
    unfold getOrHeadHandler
    simp [hb, hres]
  rw [hrun, webError_run rfl, finalize_of_some rfl]
  exact ⟨rfl, rfl⟩

/-- Witness for C10 amended: a resolve failure on a configured gateway is sent
with an empty header map and the classified status. -/
theorem userHeadersSkippedOnResolveErrorApplied :
    (getOrHeadHandler envResolveErrFx 0 ⟨"GET", "/ipfs/Qm1", "", none⟩).sentHdrs = some [] ∧
    (getOrHeadHandler envResolveErrFx 0 ⟨"GET", "/ipfs/Qm1", "", none⟩).status = some 400 :=
  userHeadersSkippedOnResolveError envResolveErrFx 0 ⟨"GET", "/ipfs/Qm1", "", none⟩
    (GoErr.other "no route to block") (by decide) rfl

/-! ### Push and branch lemmas used by the remaining claims -/

theorem ite_status (c : Prop) [Decidable c] (a b : St) :
    (if c then a else b).status = if c then a.status else b.status := by
  split <;> rfl

theorem ite_listing (c : Prop) [Decidable c] (a b : St) :
    (if c then a else b).listing = if c then a.listing else b.listing := by
  split <;> rfl

theorem ite_served (c : Prop) [Decidable c] (a b : St) :
    (if c then a else b).served = if c then a.served else b.served := by
  split <;> rfl

@[simp] theorem postNewNode_fst_status (env : Env) (ls : String) (st : St) :
    (postNewNode env ls st).1.status = st.status := by
  unfold postNewNode
  split
  · rfl
  · split <;> rfl

theorem serveContent_finalize_served (st : St) (p : String) (mt : Int) :
    ((serveContent st p mt).finalize).served = some ⟨goFileName p, mt⟩ := by
  unfold serveContent
  simp

theorem serveContent_finalize_sent (st : St) (p : String) (mt : Int)
    (hstat : st.status = none) : ((serveContent st p mt).finalize).sent = st.hdrs := by
  rw [serveContent_run hstat, finalize_of_some rfl]
  rfl

theorem ipfsCacheHdrs_hdrs_ipfs (st : St) (p e : String) (h : strStarts p ipfsPathPfx = true) :
    (ipfsCacheHdrs st p e).hdrs =
      setAssoc (setAssoc st.hdrs "Etag" e) "Cache-Control" "public, max-age=29030400" := by
  unfold ipfsCacheHdrs
  rw [if_pos h]
  rfl

theorem lookup_ipfsCacheHdrs_etag (st : St) (p e : String)
    (h : strStarts p ipfsPathPfx = true) :
    lookupHdr (ipfsCacheHdrs st p e).hdrs "Etag" = some e := by
  rw [ipfsCacheHdrs_hdrs_ipfs st p e h,
      lookup_setAssoc_other _ _ _ _ (by decide), lookup_setAssoc_self]

theorem dirCase_redirect_fields (env : Env) (r : Request) (up op : String) (ihn : Bool)
    (st : St) (nd : Node)
    (hslash : strEnds up "/" = false)
    (hidx : ∃ l ∈ nd.links, l.name = "index.html")
    (hstat : st.status = none) (hlist : st.listing = none) :
    ((dirCase env r up op ihn st nd).finalize).status = some 302 ∧
    lookupHdr ((dirCase env r up op ihn st nd).finalize).sent "Location" = some (op ++ "/") ∧
    ((dirCase env r up op ihn st nd).finalize).listing = none := by
  unfold dirCase
  rw [indexScan_redirect env r.method up op hslash nd.links st [] hidx]
  dsimp only
  rw [redirect_run hstat, finalize_of_some rfl]
  refine ⟨rfl, ?_, ?_⟩
  · simp [St.sent, lookup_setAssoc_self]
  · simpa using hlist

theorem dirCase_listing_backLink (env : Env) (r : Request) (up op : String) (ihn : Bool)
    (st : St) (nd : Node) (ld : ListingData)
    (hstl : st.listing = none)
    (hl : (dirCase env r up op ihn st nd).listing = some ld) :
    ld.backLink = computeBackLink up ihn := by
  rcases dirCase_listing env r up op ihn st nd hstl with h₁ | ⟨items, h₂⟩
  · rw [h₁] at hl
    cases hl
  · rw [h₂] at hl
    injection hl with h₃
    rw [← h₃]

/-! ### Claim theorems, continued -/

/-- Counterexample for C4: the claim quantifies over every rendered directory
listing, but when the request was rewritten by the IPNS-hostname option the
computed raw-split back-link is discarded and replaced; the listing for
`/ipns/example.net/a/b` carries back-link `/`, not the raw-split value. -/
theorem backLinkIpnsHostnameCounterexample :
    (getOrHeadHandler envDirFx 0 ⟨"GET", "/ipns/example.net/a/b", "", some "/a/b"⟩).listing =
      some ⟨[⟨"10", "a", "/a/b/a"⟩, ⟨"20", "b", "/a/b/b"⟩], "/a/b", "/"⟩ ∧
    claimBackLink "/ipns/example.net/a/b" = "/ipns/example.net/a/b/.." ∧
    ("/" : String) ≠ "/ipns/example.net/a/b/.." := by
  decide

/-- Claim C4 as amended: for every directory listing rendered for a request
that was not rewritten by the IPNS-hostname option (no X-IPNS-Original-Path
header), the back-link is exactly the raw slash-split computation the claim
describes: unchanged for 3 parts or 4 parts ending empty, else the path with
`/..` appended (`./..` when the path ends in a slash). -/
theorem backLinkFromRawSplit (env : Env) (now : Int) (r : Request) (ld : ListingData)
    (hnone : r.xIpnsOriginalPath = none)
    (hl : (getOrHeadHandler env now r).listing = some ld) :
    ld.backLink = claimBackLink r.urlPath := by
  unfold getOrHeadHandler at hl
  simp only [hnone, Option.isSome_none] at hl
  cases hbc : blockHit env.blockList r.urlPath with
  | true => rw [hbc] at hl; simp at hl
  | false =>
    rw [hbc] at hl
    simp only [Bool.false_eq_true, if_false] at hl
    cases hres : env.resolve r.urlPath with
    | error e => simp only [hres] at hl; simp at hl
    | ok nd =>
      simp only [hres] at hl
      by_cases hm : r.ifNoneMatch = goPathBase r.urlPath
      · rw [if_pos hm] at hl; simp at hl
      · rw [if_neg hm] at hl
        cases hd : env.dagReader nd with
        | none => simp only [hd] at hl; simp at hl
        | some e =>
          simp only [hd] at hl
          by_cases hdir : e = GoErr.errIsDir
          · subst hdir
            rw [if_neg (by simp : ¬(GoErr.errIsDir ≠ GoErr.errIsDir))] at hl
            rw [finalize_listing] at hl
            have hbl := dirCase_listing_backLink env r r.urlPath (originalPathOf r) false _ nd _
              (by simp) hl
            rw [hbl, computeBackLink_eq_claim]
          · rw [if_pos hdir] at hl
            simp at hl

/-- Witness for C4 amended: the amended back-link theorem applied to the
concrete listing rendered for `/ipfs/Qm1/a`. -/
theorem backLinkFromRawSplitApplied :
    (⟨[⟨"10", "a", "/ipfs/Qm1/a/a"⟩, ⟨"20", "b", "/ipfs/Qm1/a/b"⟩], "/ipfs/Qm1/a",
        "/ipfs/Qm1/a/.."⟩ : ListingData).backLink = claimBackLink "/ipfs/Qm1/a" :=
  backLinkFromRawSplit envDirFx 0 ⟨"GET", "/ipfs/Qm1/a", "", none⟩
    ⟨[⟨"10", "a", "/ipfs/Qm1/a/a"⟩, ⟨"20", "b", "/ipfs/Qm1/a/b"⟩], "/ipfs/Qm1/a",
      "/ipfs/Qm1/a/.."⟩ rfl (by decide)

/-- Claim C5: for a content-addressed path (one with the `/ipfs/` namespace
marker in front) the whole response is independent of the wall clock, and whenever a file is served its
modification time is the fixed sentinel Unix time 1 and its entity tag is the
path's final segment. -/
theorem contentAddressedDeterminism (env : Env) (r : Request) (t₁ t₂ : Int)
    (h : strStarts r.urlPath ipfsPathPfx = true) :
    getOrHeadHandler env t₁ r = getOrHeadHandler env t₂ r ∧
    ∀ info, (getOrHeadHandler env t₁ r).served = some info →
      info.modtime = 1 ∧
      lookupHdr (getOrHeadHandler env t₁ r).sent "Etag" = some (goPathBase r.urlPath) := by
  constructor
  · simp [getOrHeadHandler, h]
  · intro info hs
    unfold getOrHeadHandler at hs ⊢
    dsimp only at hs ⊢
    cases hbc : blockHit env.blockList r.urlPath with
    | true => rw [hbc] at hs; simp at hs
    | false =>
      rw [hbc] at hs
      simp only [Bool.false_eq_true, if_false] at hs ⊢
      cases hres : env.resolve r.urlPath with
      | error e => simp only [hres] at hs; simp at hs
      | ok nd =>
        simp only [hres] at hs ⊢
        by_cases hm : r.ifNoneMatch = goPathBase r.urlPath
        · rw [if_pos hm] at hs; simp at hs
        · rw [if_neg hm] at hs ⊢
          cases hd : env.dagReader nd with
          | some e =>
            simp only [hd] at hs
            by_cases hdir : e = GoErr.errIsDir
            · subst hdir
              rw [if_neg (by simp : ¬(GoErr.errIsDir ≠ GoErr.errIsDir))] at hs
              rw [finalize_served, dirCase_served] at hs
              simp [ite_served] at hs
            · rw [if_pos hdir] at hs
              simp [ite_served] at hs
          | none =>
            simp only [hd] at hs ⊢
            rw [if_pos h] at hs ⊢
            rw [serveContent_finalize_served] at hs
            injection hs with hinfo
            constructor
            · rw [← hinfo]
            · rw [serveContent_finalize_sent]
              · exact lookup_ipfsCacheHdrs_etag _ _ _ h
              · simp [ite_status]

/-- Witness for C5: the determinism theorem applied at two different clock
values on a concrete content-addressed request. -/
theorem contentAddressedDeterminismApplied :
    getOrHeadHandler envFileFx 5 ⟨"GET", "/ipfs/Qm1/f.txt", "", none⟩ =
      getOrHeadHandler envFileFx 99 ⟨"GET", "/ipfs/Qm1/f.txt", "", none⟩ :=
  (contentAddressedDeterminism envFileFx ⟨"GET", "/ipfs/Qm1/f.txt", "", none⟩ 5 99
    (by decide)).1

/-- Claim C6: when a resolved directory node has a link named exactly
index.html and the request path does not end in a slash, a GET request always
produces a 302 redirect to the original request path with a slash appended and
never a directory listing. -/
theorem indexRedirectNotListing (env : Env) (now : Int) (r : Request) (nd : Node)
    (hb : blockHit env.blockList r.urlPath = false)
    (hres : env.resolve r.urlPath = Except.ok nd)
    (hm : r.ifNoneMatch ≠ goPathBase r.urlPath)
    (hd : env.dagReader nd = some GoErr.errIsDir)
    (hidx : ∃ l ∈ nd.links, l.name = "index.html")
    (hslash : strEnds r.urlPath "/" = false)
    (_hmethod : r.method = "GET") :
    (getOrHeadHandler env now r).status = some 302 ∧
    lookupHdr (getOrHeadHandler env now r).sent "Location" = some (originalPathOf r ++ "/") ∧
    (getOrHeadHandler env now r).listing = none := by
  unfold getOrHeadHandler
  dsimp only
  rw [hb]
  simp only [Bool.false_eq_true, if_false, hres]
  rw [if_neg hm]
  simp only [hd]
  rw [if_neg (by simp : ¬(GoErr.errIsDir ≠ GoErr.errIsDir))]
  exact dirCase_redirect_fields env r r.urlPath (originalPathOf r) _ _ nd hslash hidx
    (by simp [ite_status]) (by simp [ite_listing])

/-- Witness for C6: the redirect theorem applied to a concrete directory with
an index file, requested without a trailing slash. -/
theorem indexRedirectNotListingApplied :
    (getOrHeadHandler envIdxFx 0 ⟨"GET", "/ipfs/Qm1/d", "", none⟩).status = some 302 ∧
    lookupHdr (getOrHeadHandler envIdxFx 0 ⟨"GET", "/ipfs/Qm1/d", "", none⟩).sent "Location" =
      some (originalPathOf ⟨"GET", "/ipfs/Qm1/d", "", none⟩ ++ "/") ∧
    (getOrHeadHandler envIdxFx 0 ⟨"GET", "/ipfs/Qm1/d", "", none⟩).listing = none :=
  indexRedirectNotListing envIdxFx 0 ⟨"GET", "/ipfs/Qm1/d", "", none⟩ ndIdxFx
    (by decide) rfl (by decide) rfl ⟨⟨"index.html", 5, "QmI"⟩, by decide, rfl⟩
    (by decide) rfl

/-- Claim C7: a POST whose path's final segment is the well-known placeholder
key synthesizes the empty directory (zero links) as the node to insert and
never invokes the importer. -/
theorem emptyDirPlaceholderSkipsImporter (env : Env) (r : Request)
    (hparse : parsePath r.urlPath = Except.ok r.urlPath)
    (hlast : (segments r.urlPath).getLastD "" = emptyDirPlaceholder) :
    Effect.importerCall ∉ (postHandler env r).effects ∧
    postNewNode env ((segments r.urlPath).getLastD "") St.init =
      (St.init, Except.ok newEmptyDirectory) ∧
    newEmptyDirectory.links = [] := by
  refine ⟨?_, by rw [hlast]; simp [postNewNode], rfl⟩
  unfold postHandler
  simp only [hparse]
  by_cases hns : (segments r.urlPath).getD 0 "" = ipnsPathPfx
  · rw [if_pos hns]
    simp
  · rw [if_neg hns]
    rw [hlast]
    simp only [postNewNode, if_true]
    cases hr : env.resolve r.urlPath with
    | ok rnode =>
      simp only [hr]
      cases ha : env.dagAdd { rnode with data := newEmptyDirectory.data } with
      | error e => simp [ha]
      | ok k => simp [ha]
    | error e =>
      cases e with
      | errNoLink nm =>
        simp only [hr]
        cases hg : env.dagGet ((segments r.urlPath).getD 1 "") with
        | error e₂ => simp [hg]
        | ok rnode =>
          simp only [hg]
          split
          · simp
          · split <;> simp
      | routingNotFound => simp [hr]
      | deadlineExceeded => simp [hr]
      | errIsDir => simp [hr]
      | ipnsNotSupported => simp [hr]
      | notMeaningful => simp [hr]
      | invalidPath p => simp [hr]
      | other m => simp [hr]

/-- Witness for C7: the placeholder-key theorem applied to a concrete POST of
the placeholder path. -/
theorem emptyDirPlaceholderSkipsImporterApplied :
    Effect.importerCall ∉
      (postHandler envPostFx
        ⟨"POST", "/ipfs/QmUNLLsPACCz1vLxQVkXqqLX5R1X345qqfHbsf67hvA3Nn", "", none⟩).effects :=
  (emptyDirPlaceholderSkipsImporter envPostFx
    ⟨"POST", "/ipfs/QmUNLLsPACCz1vLxQVkXqqLX5R1X345qqfHbsf67hvA3Nn", "", none⟩
    rfl (by decide)).1

/-- Claim C8: when the POSTed root path resolves fully, the node re-added to
the store keeps the resolved node's links and takes only the new payload, and
the key the store returns for it is exactly the value of the IPFS-Hash header
and of the 201 redirect location. -/
theorem postObjectDataReplace (env : Env) (r : Request) (newnode rnode : Node) (k : String)
    (hparse : parsePath r.urlPath = Except.ok r.urlPath)
    (hns : (segments r.urlPath).getD 0 "" ≠ ipnsPathPfx)
    (hnew : (postNewNode env ((segments r.urlPath).getLastD "") St.init).2 = Except.ok newnode)
    (hres : env.resolve r.urlPath = Except.ok rnode)
    (hadd : env.dagAdd ⟨newnode.data, rnode.links⟩ = Except.ok k) :
    (postHandler env r).status = some 201 ∧
    Effect.dagAddCall ⟨newnode.data, rnode.links⟩ ∈ (postHandler env r).effects ∧
    lookupHdr (postHandler env r).sent "IPFS-Hash" = some k ∧
    lookupHdr (postHandler env r).sent "Location" =
      some (goPathJoin [ipfsPathPfx, k,
        if 1 < (segments r.urlPath).length then goPathJoin ((segments r.urlPath).drop 2)
        else ""]) := by
  have hrun : postHandler env r =
      mutationSuccess env.headers
        (((postNewNode env ((segments r.urlPath).getLastD "") St.init).1.emit
            (Effect.resolveCall r.urlPath)).emit
          (Effect.dagAddCall ⟨newnode.data, rnode.links⟩)) k
        (if 1 < (segments r.urlPath).length then goPathJoin ((segments r.urlPath).drop 2)
         else "") := by
    unfold postHandler
    simp only [hparse]
    rw [if_neg hns]
    simp only [hnew, hres, hadd]
  rw [hrun]
  have hstat : (((postNewNode env ((segments r.urlPath).getLastD "") St.init).1.emit
      (Effect.resolveCall r.urlPath)).emit
        (Effect.dagAddCall ⟨newnode.data, rnode.links⟩)).status = none := by simp
  obtain ⟨h₁, h₂, h₃⟩ := mutationSuccess_fields env.headers _ k _ hstat
  exact ⟨h₁, by simp, h₂, h₃⟩

/-- Witness for C8: the object-data-replace theorem applied to a concrete POST
whose root resolves to the directory fixture (the placeholder path, so the new
node is the synthesized empty directory). -/
theorem postObjectDataReplaceApplied :
    (postHandler envPostFx
        ⟨"POST", "/ipfs/QmUNLLsPACCz1vLxQVkXqqLX5R1X345qqfHbsf67hvA3Nn", "", none⟩).status =
      some 201 ∧
    Effect.dagAddCall ⟨newEmptyDirectory.data, ndDirFx.links⟩ ∈
      (postHandler envPostFx
        ⟨"POST", "/ipfs/QmUNLLsPACCz1vLxQVkXqqLX5R1X345qqfHbsf67hvA3Nn", "", none⟩).effects ∧
    lookupHdr
        (postHandler envPostFx
          ⟨"POST", "/ipfs/QmUNLLsPACCz1vLxQVkXqqLX5R1X345qqfHbsf67hvA3Nn", "", none⟩).sent
        "IPFS-Hash" = some "QmNEW" ∧
    lookupHdr
        (postHandler envPostFx
          ⟨"POST", "/ipfs/QmUNLLsPACCz1vLxQVkXqqLX5R1X345qqfHbsf67hvA3Nn", "", none⟩).sent
        "Location" =
      some (goPathJoin [ipfsPathPfx, "QmNEW",
        if 1 < (segments "/ipfs/QmUNLLsPACCz1vLxQVkXqqLX5R1X345qqfHbsf67hvA3Nn").length then
          goPathJoin ((segments "/ipfs/QmUNLLsPACCz1vLxQVkXqqLX5R1X345qqfHbsf67hvA3Nn").drop 2)
        else ""]) :=
  postObjectDataReplace envPostFx
    ⟨"POST", "/ipfs/QmUNLLsPACCz1vLxQVkXqqLX5R1X345qqfHbsf67hvA3Nn", "", none⟩
    newEmptyDirectory ndDirFx "QmNEW" rfl (by decide) rfl rfl rfl
